import Mathlib

/-!
Shallow embedding of `src/python/sedona/sql/st_predicates.py` (Apache Sedona
Python API, spatial predicate bindings), together with a model of the
geometric predicate engine those bindings call into, which the spec
describes but whose code is not part of the excerpt.

The Python module is a thin binding layer: nine public functions, each
decorated with `validate_argument_types`, each forwarding its two
column-or-name arguments to `call_sedona_function` with the module tag
`"st_predicates"` and the SQL function name equal to the Python function
name.  PySpark `Column` values are symbolic expression trees, so the
result of `call_sedona_function` is modelled as a record of the call it
builds: which module tag, which function name, and which arguments, in
order.
-/

/-- A PySpark argument value as seen by the binding layer: a `Column`
(abstracted by an identifier), a column name (a string), Python `None`,
or any other Python value.  `ColumnOrName` in the source is the union of
the first two. -/
inductive PyVal where
  | column (id : Nat)
  | name (s : String)
  | pynone
  | other
  deriving DecidableEq

/-- The `Column` built by `call_sedona_function`: a symbolic invocation of
a named Sedona SQL function on argument values.  `module` is the function
registry tag, `fn` the SQL function name, `args` the arguments in the
order passed. -/
structure Col where
  module : String
  fn : String
  args : List PyVal
  deriving DecidableEq

/-- The error a failed argument-type validation raises in Python. -/
inductive PyError where
  | valueError
  deriving DecidableEq

/-- Whether a Python value conforms to the `ColumnOrName` annotation:
a `Column` or a string.  This is the check `validate_argument_types`
performs on each argument of the decorated function. -/
def isColumnOrName : PyVal → Bool
  | .column _ => true
  | .name _ => true
  | .pynone => false
  | .other => false

/-- `call_sedona_function` from `sedona.sql.dataframe_api`: builds the
Column invoking the named SQL function of the named module on the given
arguments. -/
def call_sedona_function (module : String) (fn : String) (args : List PyVal) : Col :=
  { module := module, fn := fn, args := args }

/-- Line 21 of the source: `_call_predicate_function =
partial(call_sedona_function, "st_predicates")`, the module-tag
specialisation every wrapper in this file dispatches through. -/
def call_predicate_function : String → List PyVal → Col :=
  call_sedona_function "st_predicates"

/-- The `validate_argument_types` decorator: checks each argument against
its `ColumnOrName` annotation before running the wrapped function body,
raising a Python error when an argument has the wrong type. -/
def validate_argument_types (f : PyVal → PyVal → Col) (a b : PyVal) : Except PyError Col :=
  if isColumnOrName a && isColumnOrName b then Except.ok (f a b)
  else Except.error PyError.valueError

/-- `ST_Contains(a, b)` - check whether geometry a contains geometry b. -/
def ST_Contains : PyVal → PyVal → Except PyError Col :=
  validate_argument_types (fun a b => call_predicate_function "ST_Contains" [a, b])

/-- `ST_Crosses(a, b)` - check whether geometry a crosses geometry b. -/
def ST_Crosses : PyVal → PyVal → Except PyError Col :=
  validate_argument_types (fun a b => call_predicate_function "ST_Crosses" [a, b])

/-- `ST_Disjoint(a, b)` - check whether two geometries are disjoint. -/
def ST_Disjoint : PyVal → PyVal → Except PyError Col :=
  validate_argument_types (fun a b => call_predicate_function "ST_Disjoint" [a, b])

/-- `ST_Equals(a, b)` - check whether two geometries are equal regardless
of vertex ordering. -/
def ST_Equals : PyVal → PyVal → Except PyError Col :=
  validate_argument_types (fun a b => call_predicate_function "ST_Equals" [a, b])

/-- `ST_Intersects(a, b)` - check whether two geometries intersect. -/
def ST_Intersects : PyVal → PyVal → Except PyError Col :=
  validate_argument_types (fun a b => call_predicate_function "ST_Intersects" [a, b])

/-- `ST_OrderingEquals(a, b)` - check whether two geometries have
identical vertices in the same order. -/
def ST_OrderingEquals : PyVal → PyVal → Except PyError Col :=
  validate_argument_types (fun a b => call_predicate_function "ST_OrderingEquals" [a, b])

/-- `ST_Overlaps(a, b)` - check whether geometry a overlaps geometry b. -/
def ST_Overlaps : PyVal → PyVal → Except PyError Col :=
  validate_argument_types (fun a b => call_predicate_function "ST_Overlaps" [a, b])

/-- `ST_Touches(a, b)` - check whether two geometries touch. -/
def ST_Touches : PyVal → PyVal → Except PyError Col :=
  validate_argument_types (fun a b => call_predicate_function "ST_Touches" [a, b])

/-- `ST_Within(a, b)` - check if geometry a is within geometry b. -/
def ST_Within : PyVal → PyVal → Except PyError Col :=
  validate_argument_types (fun a b => call_predicate_function "ST_Within" [a, b])

/-- The module export list `__all__`, lines 8-18 of the source, in source
order. -/
def all_exports : List String :=
  ["ST_Contains", "ST_Crosses", "ST_Disjoint", "ST_Equals", "ST_Intersects",
   "ST_OrderingEquals", "ST_Overlaps", "ST_Touches", "ST_Within"]

/-- The public functions the module defines, paired with their Python
names, in source order.  These nine `def`s are the only module-level
function definitions besides the private specialisation
`call_predicate_function`. -/
def moduleDefs : List (String × (PyVal → PyVal → Except PyError Col)) :=
  [("ST_Contains", ST_Contains), ("ST_Crosses", ST_Crosses),
   ("ST_Disjoint", ST_Disjoint), ("ST_Equals", ST_Equals),
   ("ST_Intersects", ST_Intersects), ("ST_OrderingEquals", ST_OrderingEquals),
   ("ST_Overlaps", ST_Overlaps), ("ST_Touches", ST_Touches),
   ("ST_Within", ST_Within)]

/-- Modelled from the spec: the geometric predicate engine's code is not
part of the source excerpt (only these Python bindings are), so the
geometry representation is taken from spec sections 3 and 4.1: a geometry
is an ordered coordinate sequence (the vertex traversal, carrying the
winding order and start point) together with the point set of its
interior.  Coordinates are integer pairs; the boundary point set is
derived from the vertex sequence.  Immutable once constructed. -/
structure Geometry where
  verts : List (Int × Int)
  interior : Finset (Int × Int)
  deriving DecidableEq

/-- Modelled from the spec: the boundary point set a geometry's vertex
sequence determines.  Order and repetition of the traversal are forgotten;
only the set of positions remains. -/
def boundarySet (g : Geometry) : Finset (Int × Int) :=
  g.verts.toFinset

/-- Modelled from the spec: the dimension value of an intersection in the
DE-9IM matrix, for the point-set model: -1 when the intersection is
empty, 0 (a point set) otherwise. -/
def dimOf (s : Finset (Int × Int)) : Int :=
  if s.Nonempty then 0 else -1

/-- Modelled from the spec, section 3: the IntersectionMatrix, a 3 by 3
grid of dimension values recording the dimensionality of intersections
between interior (I), boundary (B) and exterior (E) of geometry A (first
letter) and geometry B (second letter). -/
structure IM where
  II : Int
  IB : Int
  IE : Int
  BI : Int
  BB : Int
  BE : Int
  EI : Int
  EB : Int
  EE : Int
  deriving DecidableEq

/-- Modelled from the spec, section 4.2: the kernel's matrix computation
for a geometry pair.  The exterior of a geometry is the complement of its
interior and boundary, so an entry against an exterior is the dimension
of a set difference; the exterior-exterior entry of two bounded
geometries is always the full plane dimension 2. -/
def relate (a b : Geometry) : IM :=
  { II := dimOf (a.interior ∩ b.interior)
    IB := dimOf (a.interior ∩ boundarySet b)
    IE := dimOf (a.interior \ (b.interior ∪ boundarySet b))
    BI := dimOf (boundarySet a ∩ b.interior)
    BB := dimOf (boundarySet a ∩ boundarySet b)
    BE := dimOf (boundarySet a \ (b.interior ∪ boundarySet b))
    EI := dimOf (b.interior \ (a.interior ∪ boundarySet a))
    EB := dimOf (boundarySet b \ (a.interior ∪ boundarySet a))
    EE := 2 }

/-- Modelled from the spec, section 4.2: Disjoint(A,B) - all
interior/boundary intersections empty. -/
def disjointM (M : IM) : Bool :=
  decide (M.II = -1) && decide (M.IB = -1) && decide (M.BI = -1) && decide (M.BB = -1)

/-- Modelled from the spec, section 4.2: Intersects(A,B) - some
interior/boundary intersection is nonempty. -/
def intersectsM (M : IM) : Bool :=
  decide (0 ≤ M.II) || decide (0 ≤ M.IB) || decide (0 ≤ M.BI) || decide (0 ≤ M.BB)

/-- Modelled from the spec, section 4.2: Contains(A,B) - B's interior
and boundary lie inside A (nothing of B meets A's exterior) and the
interiors meet. -/
def containsM (M : IM) : Bool :=
  decide (0 ≤ M.II) && decide (M.EI = -1) && decide (M.EB = -1)

/-- Modelled from the spec, section 4.2: Within(A,B) - inverse of
Contains: nothing of A meets B's exterior and the interiors meet. -/
def withinM (M : IM) : Bool :=
  decide (0 ≤ M.II) && decide (M.IE = -1) && decide (M.BE = -1)

/-- Modelled from the spec, section 4.2: Touches(A,B) - boundaries
intersect, interiors do not. -/
def touchesM (M : IM) : Bool :=
  decide (0 ≤ M.BB) && decide (M.II = -1)

/-- Modelled from the spec, section 4.2: Crosses(A,B) - interiors
intersect while each geometry also reaches the other's exterior through
its boundary (the dimension-comparison clause of the spec degenerates in
this point-set model, where every nonempty intersection has dimension 0). -/
def crossesM (M : IM) : Bool :=
  decide (0 ≤ M.II) && decide (0 ≤ M.BE) && decide (0 ≤ M.EB)

/-- Modelled from the spec, section 4.2: Overlaps(A,B) - interiors
intersect, neither geometry contains the other. -/
def overlapsM (M : IM) : Bool :=
  decide (0 ≤ M.II) && decide (0 ≤ M.IE) && decide (0 ≤ M.EI)

/-- Modelled from the spec, section 4.2: Equals(A,B) - interiors and
boundaries coincide, regardless of vertex order: neither geometry meets
the other's exterior. -/
def equalsM (M : IM) : Bool :=
  decide (M.IE = -1) && decide (M.BE = -1) && decide (M.EI = -1) && decide (M.EB = -1)

/-- Modelled from the spec, section 4.3: the vertex-ordering equality
check - element-by-element comparison of the coordinate sequences, true
only on exact structural and positional match.  It bypasses the matrix
kernel. -/
def orderingEqualsCheck (a b : Geometry) : Bool :=
  decide (a.verts = b.verts)

/-- Modelled from the spec, section 9: the closed enumeration of the nine
predicate names the dispatch facade accepts. -/
inductive PredName where
  | containsP
  | crossesP
  | disjointP
  | equalsP
  | intersectsP
  | orderingEqualsP
  | overlapsP
  | touchesP
  | withinP
  deriving DecidableEq

/-- Modelled from the spec, section 4.4: the predicate dispatch facade -
given a predicate name and two geometries, resolves to the matrix pattern
or the direct ordering check, invokes it, and returns a boolean. -/
def evalPredicate : PredName → Geometry → Geometry → Bool
  | .containsP, a, b => containsM (relate a b)
  | .crossesP, a, b => crossesM (relate a b)
  | .disjointP, a, b => disjointM (relate a b)
  | .equalsP, a, b => equalsM (relate a b)
  | .intersectsP, a, b => intersectsM (relate a b)
  | .orderingEqualsP, a, b => orderingEqualsCheck a b
  | .overlapsP, a, b => overlapsM (relate a b)
  | .touchesP, a, b => touchesM (relate a b)
  | .withinP, a, b => withinM (relate a b)

/-- Modelled from the spec, section 5: the observable state of the host
process around the engine (modelled as an opaque log of observations a
stateful evaluator could have appended to). -/
structure EngineState where
  log : List String
  deriving DecidableEq

/-- Modelled from the spec, sections 4.4 and 5: predicate evaluation as
the host engine runs it, with the ambient process state threaded
explicitly.  The evaluation is a pure function of the name and the two
geometries and leaves the state untouched. -/
def evalPredicateSt (n : PredName) (a b : Geometry) (s : EngineState) :
    Bool × EngineState :=
  (evalPredicate n a b, s)

/-- Modelled from the spec, section 7: the engine's error taxonomy. -/
inductive GeomError where
  | malformedGeometry
  | unsupportedGeometryType
  | nullGeometryError
  deriving DecidableEq

/-- Modelled from the spec, section 6: evaluation at the engine boundary,
where an operand may be missing (null): a null geometry operand yields
`NullGeometryError` surfaced to the caller instead of a boolean. -/
def evalPredicateOpt (n : PredName) : Option Geometry → Option Geometry →
    Except GeomError Bool
  | some a, some b => Except.ok (evalPredicate n a b)
  | _, _ => Except.error GeomError.nullGeometryError

/-- Modelled from the spec, section 6: the engine predicate each exported
SQL function name denotes. -/
def enginePred : String → Option PredName
  | "ST_Contains" => some PredName.containsP
  | "ST_Crosses" => some PredName.crossesP
  | "ST_Disjoint" => some PredName.disjointP
  | "ST_Equals" => some PredName.equalsP
  | "ST_Intersects" => some PredName.intersectsP
  | "ST_OrderingEquals" => some PredName.orderingEqualsP
  | "ST_Overlaps" => some PredName.overlapsP
  | "ST_Touches" => some PredName.touchesP
  | "ST_Within" => some PredName.withinP
  | _ => none

/-- Modelled from the spec, section 4.1: validity of a polygon ring - at
least 4 points, closed (first vertex equals last), and not degenerate:
the traversal without its closing repeat visits no position twice. -/
def validRing (r : List (Int × Int)) : Prop :=
  4 ≤ r.length ∧ r.head? = r.getLast? ∧ r.dropLast.Nodup

/-- Modelled from the spec: the reverse-winding duplicate of a polygon -
same shape (same interior, same boundary positions), vertices traversed
in the opposite order. -/
def reverseGeom (g : Geometry) : Geometry :=
  { verts := g.verts.reverse, interior := g.interior }

/-- A concrete valid square ring geometry, the unit square with corners
(0,0) and (1,1), used to instantiate hypotheses of the theorems below. -/
def sqGeom : Geometry :=
  { verts := [(0, 0), (0, 1), (1, 1), (1, 0), (0, 0)], interior := ∅ }

theorem validate_ok (f : PyVal → PyVal → Col) (a b : PyVal)
    (ha : isColumnOrName a = true) (hb : isColumnOrName b = true) :
    validate_argument_types f a b = Except.ok (f a b) := by
  simp [validate_argument_types, ha, hb]

theorem dimOf_cases (s : Finset (Int × Int)) : dimOf s = -1 ∨ dimOf s = 0 := by
  unfold dimOf
  split
  · exact Or.inr rfl
  · exact Or.inl rfl

theorem dimOf_sdiff_subset {s u t : Finset (Int × Int)} (h : s ⊆ u ∪ t) :
    dimOf (s \ (u ∪ t)) = -1 := by
  unfold dimOf
  rw [if_neg]
  rw [Finset.nonempty_iff_ne_empty, not_not, Finset.sdiff_eq_empty_iff_subset]
  exact h

theorem boundarySet_reverse (g : Geometry) :
    boundarySet (reverseGeom g) = boundarySet g := by
  simp [boundarySet, reverseGeom, List.toFinset_reverse]

theorem validRing_ne_reverse {l : List (Int × Int)} (h : validRing l) :
    l ≠ l.reverse := by
  obtain ⟨hlen, -, hnd⟩ := h
  intro heq
  have h1 : l[1]? = l[l.length - 2]? := by
    calc l[1]? = l.reverse[1]? := by rw [← heq]
      _ = l[l.length - 2]? := List.getElem?_reverse (by omega)
  have hg1 : (1 : Nat) < l.length := by omega
  have hg2 : l.length - 2 < l.length := by omega
  rw [List.getElem?_eq_getElem hg1, List.getElem?_eq_getElem hg2,
    Option.some_inj] at h1
  have hd1 : 1 < l.dropLast.length := by rw [List.length_dropLast]; omega
  have hd2 : l.length - 2 < l.dropLast.length := by rw [List.length_dropLast]; omega
  have h2 : l.dropLast.get ⟨1, hd1⟩ = l.dropLast.get ⟨l.length - 2, hd2⟩ := by
    rw [List.get_eq_getElem, List.get_eq_getElem, List.getElem_dropLast,
      List.getElem_dropLast]
    exact h1
  have h3 := hnd.get_inj_iff.mp h2
  have h4 : (1 : Nat) = l.length - 2 := congrArg Fin.val h3
  omega

theorem interior_reverse (g : Geometry) :
    (reverseGeom g).interior = g.interior := rfl

theorem wrapper_ok (name : String) (a b : PyVal)
    (ha : isColumnOrName a = true) (hb : isColumnOrName b = true) :
    ∃ c : Col, validate_argument_types
      (fun x y => call_predicate_function name [x, y]) a b = Except.ok c :=
  ⟨_, validate_ok _ a b ha hb⟩

theorem call_ok_inv {name : String} {a b : PyVal} {c : Col}
    (h : validate_argument_types
      (fun x y => call_predicate_function name [x, y]) a b = Except.ok c) :
    c = { module := "st_predicates", fn := name, args := [a, b] } := by
  unfold validate_argument_types at h
  split at h
  · exact (Except.ok.inj h).symm
  · exact Except.noConfusion h

/-- C1: the module exposes exactly nine named predicate entry points -
ST_Contains, ST_Crosses, ST_Disjoint, ST_Equals, ST_Intersects,
ST_OrderingEquals, ST_Overlaps, ST_Touches, ST_Within - and every one of
them takes exactly two geometry-column arguments (their Lean type) and,
on arguments of the annotated types, returns one column; each exported
name denotes an engine predicate whose evaluation is boolean. -/
theorem c1_nine_predicate_entry_points :
    all_exports.length = 9 ∧
    moduleDefs.map Prod.fst = all_exports ∧
    (∀ p : String × (PyVal → PyVal → Except PyError Col), p ∈ moduleDefs →
      ∀ a b : PyVal, isColumnOrName a = true → isColumnOrName b = true →
      ∃ c : Col, p.2 a b = Except.ok c) ∧
    (∀ n, n ∈ all_exports → (enginePred n).isSome = true) := by
  refine ⟨rfl, rfl, ?_, by decide⟩
  intro p hp a b ha hb
  fin_cases hp <;> exact wrapper_ok _ a b ha hb

/-- Closed instance of C1 at the first entry (ST_Contains) on a column
and a column name, and at the exported name ST_Contains. -/
theorem c1_nine_predicate_entry_points_witness :
    (∃ c : Col, ST_Contains (PyVal.column 0) (PyVal.name "g") = Except.ok c) ∧
    (enginePred "ST_Contains").isSome = true :=
  ⟨c1_nine_predicate_entry_points.2.2.1 ("ST_Contains", ST_Contains)
    (List.Mem.head _) (PyVal.column 0) (PyVal.name "g") rfl rfl,
   c1_nine_predicate_entry_points.2.2.2 "ST_Contains" (by decide)⟩

/-- C2: every function in the module has the same shape - it first
validates the types of its arguments (raising a Python error on an
argument that is not a column or a name) and otherwise forwards them to
the generic call-a-named-SQL-function dispatcher; the result is exactly
the dispatcher's symbolic call, so no function performs geometric
computation itself. -/
theorem c2_validate_then_forward :
    ∀ a b : PyVal,
      ST_Contains a b = (if isColumnOrName a && isColumnOrName b
        then Except.ok (call_sedona_function "st_predicates" "ST_Contains" [a, b])
        else Except.error PyError.valueError) ∧
      ST_Crosses a b = (if isColumnOrName a && isColumnOrName b
        then Except.ok (call_sedona_function "st_predicates" "ST_Crosses" [a, b])
        else Except.error PyError.valueError) ∧
      ST_Disjoint a b = (if isColumnOrName a && isColumnOrName b
        then Except.ok (call_sedona_function "st_predicates" "ST_Disjoint" [a, b])
        else Except.error PyError.valueError) ∧
      ST_Equals a b = (if isColumnOrName a && isColumnOrName b
        then Except.ok (call_sedona_function "st_predicates" "ST_Equals" [a, b])
        else Except.error PyError.valueError) ∧
      ST_Intersects a b = (if isColumnOrName a && isColumnOrName b
        then Except.ok (call_sedona_function "st_predicates" "ST_Intersects" [a, b])
        else Except.error PyError.valueError) ∧
      ST_OrderingEquals a b = (if isColumnOrName a && isColumnOrName b
        then Except.ok (call_sedona_function "st_predicates" "ST_OrderingEquals" [a, b])
        else Except.error PyError.valueError) ∧
      ST_Overlaps a b = (if isColumnOrName a && isColumnOrName b
        then Except.ok (call_sedona_function "st_predicates" "ST_Overlaps" [a, b])
        else Except.error PyError.valueError) ∧
      ST_Touches a b = (if isColumnOrName a && isColumnOrName b
        then Except.ok (call_sedona_function "st_predicates" "ST_Touches" [a, b])
        else Except.error PyError.valueError) ∧
      ST_Within a b = (if isColumnOrName a && isColumnOrName b
        then Except.ok (call_sedona_function "st_predicates" "ST_Within" [a, b])
        else Except.error PyError.valueError) :=
  fun _ _ => ⟨rfl, rfl, rfl, rfl, rfl, rfl, rfl, rfl, rfl⟩

/-- C3: predicate dispatch is a pure, stateless function - for every
predicate name and every pair of geometries, two invocations in
different ambient states produce the same boolean, and no call changes
the ambient state. -/
theorem c3_pure_stateless_dispatch :
    ∀ (n : PredName) (a b : Geometry) (s t : EngineState),
      (evalPredicateSt n a b s).1 = (evalPredicateSt n a b t).1 ∧
      (evalPredicateSt n a b s).2 = s :=
  fun _ _ _ _ _ => ⟨rfl, rfl⟩

/-- C4: for every pair of geometries, the Intersects predicate returns
the logical negation of the Disjoint predicate. -/
theorem c4_intersects_negation_of_disjoint :
    ∀ a b : Geometry,
      evalPredicate PredName.intersectsP a b =
        !(evalPredicate PredName.disjointP a b) := by
  intro a b
  show intersectsM (relate a b) = !disjointM (relate a b)
  rcases dimOf_cases (a.interior ∩ b.interior) with h1 | h1 <;>
    rcases dimOf_cases (a.interior ∩ boundarySet b) with h2 | h2 <;>
      rcases dimOf_cases (boundarySet a ∩ b.interior) with h3 | h3 <;>
        rcases dimOf_cases (boundarySet a ∩ boundarySet b) with h4 | h4 <;>
          simp [intersectsM, disjointM, relate, h1, h2, h3, h4]

/-- C5: for every pair of geometries, Contains on (a, b) returns the
same boolean as Within on (b, a): the two predicates are each other's
argument-swapped inverse. -/
theorem c5_contains_eq_within_swapped :
    ∀ a b : Geometry,
      evalPredicate PredName.containsP a b =
        evalPredicate PredName.withinP b a := by
  intro a b
  show containsM (relate a b) = withinM (relate b a)
  simp [containsM, withinM, relate, Finset.inter_comm]

/-- C6: for every valid polygon ring and its reverse-winding duplicate
(same interior, same boundary positions, opposite traversal), Equals
returns true while OrderingEquals returns false; and OrderingEquals
returns true only on exact coordinate-sequence match. -/
theorem c6_ordering_sensitivity :
    (∀ g : Geometry, validRing g.verts →
      evalPredicate PredName.equalsP g (reverseGeom g) = true ∧
      evalPredicate PredName.orderingEqualsP g (reverseGeom g) = false) ∧
    (∀ a b : Geometry,
      evalPredicate PredName.orderingEqualsP a b = true → a.verts = b.verts) := by
  constructor
  · intro g hg
    constructor
    · show equalsM (relate g (reverseGeom g)) = true
      have h1 : dimOf (g.interior \ (g.interior ∪ boundarySet g)) = -1 :=
        dimOf_sdiff_subset Finset.subset_union_left
      have h2 : dimOf (boundarySet g \ (g.interior ∪ boundarySet g)) = -1 :=
        dimOf_sdiff_subset Finset.subset_union_right
      simp only [equalsM, relate, interior_reverse, boundarySet_reverse]
      rw [h1, h2]
      rfl
    · show orderingEqualsCheck g (reverseGeom g) = false
      rw [orderingEqualsCheck, decide_eq_false_iff_not]
      exact validRing_ne_reverse hg
  · intro a b h
    exact of_decide_eq_true h

/-- Closed instance of C6: the unit square ring is a valid ring, its
reverse-winding duplicate is topologically equal to it but
ordering-unequal, and OrderingEquals on two identical geometries implies
identical vertex sequences. -/
theorem c6_ordering_sensitivity_witness :
    (evalPredicate PredName.equalsP sqGeom (reverseGeom sqGeom) = true ∧
     evalPredicate PredName.orderingEqualsP sqGeom (reverseGeom sqGeom) = false) ∧
    sqGeom.verts = sqGeom.verts :=
  ⟨c6_ordering_sensitivity.1 sqGeom ⟨by decide, by decide, by decide⟩,
   c6_ordering_sensitivity.2 sqGeom sqGeom (by decide)⟩

/-- C7: for every predicate entry point, a null (missing) geometry
operand never silently produces a false result - evaluation on a null
geometry input yields the defined NullGeometryError surfaced to the
caller, and in particular never an ok boolean. -/
theorem c7_null_geometry_error :
    ∀ (n : PredName) (a b : Option Geometry), a = none ∨ b = none →
      evalPredicateOpt n a b = Except.error GeomError.nullGeometryError ∧
      ∀ r : Bool, evalPredicateOpt n a b ≠ Except.ok r := by
  intro n a b h
  have he : evalPredicateOpt n a b = Except.error GeomError.nullGeometryError := by
    rcases h with h | h
    · subst h; cases b <;> rfl
    · subst h; cases a <;> rfl
  refine ⟨he, fun r hr => ?_⟩
  rw [he] at hr
  exact Except.noConfusion hr

/-- Closed instance of C7: Intersects with a missing first operand. -/
theorem c7_null_geometry_error_witness :
    evalPredicateOpt PredName.intersectsP none (some sqGeom) =
      Except.error GeomError.nullGeometryError :=
  (c7_null_geometry_error PredName.intersectsP none (some sqGeom) (Or.inl rfl)).1

/-- C8: every public predicate wrapper forwards, as the SQL function
name, the string identical to its own Python function name, and every
wrapper dispatches with the module tag st_predicates. -/
theorem c8_forwards_own_name_and_module :
    ∀ (a b : PyVal) (c : Col),
      (ST_Contains a b = Except.ok c →
        c.module = "st_predicates" ∧ c.fn = "ST_Contains") ∧
      (ST_Crosses a b = Except.ok c →
        c.module = "st_predicates" ∧ c.fn = "ST_Crosses") ∧
      (ST_Disjoint a b = Except.ok c →
        c.module = "st_predicates" ∧ c.fn = "ST_Disjoint") ∧
      (ST_Equals a b = Except.ok c →
        c.module = "st_predicates" ∧ c.fn = "ST_Equals") ∧
      (ST_Intersects a b = Except.ok c →
        c.module = "st_predicates" ∧ c.fn = "ST_Intersects") ∧
      (ST_OrderingEquals a b = Except.ok c →
        c.module = "st_predicates" ∧ c.fn = "ST_OrderingEquals") ∧
      (ST_Overlaps a b = Except.ok c →
        c.module = "st_predicates" ∧ c.fn = "ST_Overlaps") ∧
      (ST_Touches a b = Except.ok c →
        c.module = "st_predicates" ∧ c.fn = "ST_Touches") ∧
      (ST_Within a b = Except.ok c →
        c.module = "st_predicates" ∧ c.fn = "ST_Within") := by
  intro a b c
  refine ⟨?_, ?_, ?_, ?_, ?_, ?_, ?_, ?_, ?_⟩ <;>
    exact fun h => by rw [call_ok_inv h]; exact ⟨rfl, rfl⟩

/-- Closed instance of C8: ST_Contains applied to two columns forwards
module tag st_predicates and its own name. -/
theorem c8_forwards_own_name_and_module_witness :
    Col.module (Col.mk "st_predicates" "ST_Contains"
      [PyVal.column 0, PyVal.column 1]) = "st_predicates" ∧
    Col.fn (Col.mk "st_predicates" "ST_Contains"
      [PyVal.column 0, PyVal.column 1]) = "ST_Contains" :=
  (c8_forwards_own_name_and_module (PyVal.column 0) (PyVal.column 1)
    (Col.mk "st_predicates" "ST_Contains"
      [PyVal.column 0, PyVal.column 1])).1 rfl

/-- C9: every public predicate wrapper forwards its two arguments to the
dispatcher unmodified and in the order received - the argument list of
the built call is exactly the received pair. -/
theorem c9_forwards_args_in_order :
    ∀ (a b : PyVal) (c : Col),
      (ST_Contains a b = Except.ok c → c.args = [a, b]) ∧
      (ST_Crosses a b = Except.ok c → c.args = [a, b]) ∧
      (ST_Disjoint a b = Except.ok c → c.args = [a, b]) ∧
      (ST_Equals a b = Except.ok c → c.args = [a, b]) ∧
      (ST_Intersects a b = Except.ok c → c.args = [a, b]) ∧
      (ST_OrderingEquals a b = Except.ok c → c.args = [a, b]) ∧
      (ST_Overlaps a b = Except.ok c → c.args = [a, b]) ∧
      (ST_Touches a b = Except.ok c → c.args = [a, b]) ∧
      (ST_Within a b = Except.ok c → c.args = [a, b]) := by
  intro a b c
  refine ⟨?_, ?_, ?_, ?_, ?_, ?_, ?_, ?_, ?_⟩ <;>
    exact fun h => by rw [call_ok_inv h]

/-- Closed instance of C9: ST_Within applied to a column and a name
forwards exactly that argument pair, in order. -/
theorem c9_forwards_args_in_order_witness :
    Col.args (Col.mk "st_predicates" "ST_Within"
      [PyVal.column 3, PyVal.name "geom"]) =
      [PyVal.column 3, PyVal.name "geom"] :=
  (c9_forwards_args_in_order (PyVal.column 3) (PyVal.name "geom")
    (Col.mk "st_predicates" "ST_Within"
      [PyVal.column 3, PyVal.name "geom"])).2.2.2.2.2.2.2.2 rfl

/-- C10: the export list of the module contains exactly the nine
predicate function names defined in the module - no defined function is
missing from it, no listed name lacks a definition, and no name is
listed twice. -/
theorem c10_exports_match_definitions :
    moduleDefs.map Prod.fst = all_exports ∧ all_exports.Nodup :=
  ⟨rfl, by decide⟩
